import Mathlib

/-!
Verification development for the `create_render.py` video-composition script.

The script builds a declarative composition document (a list of timed,
positioned clips) from an actor video, a list of supplementary assets and a
total duration, then submits it to a rendering service and polls for
completion.

Embedding conventions:
* Python numbers (ints and floats) are modelled as exact rationals (`ℚ`);
  the script's arithmetic on timestamps and scales is plain field arithmetic.
* Network and media probing are external: the resolution of an asset URL to
  intrinsic pixel dimensions is a parameter `resolve : String → Option Size`,
  where `none` models any download or probe failure (the `except` branch of
  `get_position_and_scale`).
* Clip `id` fields (fresh UUIDs) are nondeterministic and carry no
  information used anywhere; they are omitted from the clip record.
* Writing `video_template.json` to disk is an effect outside the data flow
  and is not modelled.
-/

/-- Canvas width in pixels (`frame_width = 1080`). -/
def frame_width : ℚ := 1080

/-- Canvas height in pixels (`frame_height = 1920`). -/
def frame_height : ℚ := 1920

/-- Canvas center: `frame_center = [frame_width/2, frame_height/2]`. -/
def frame_center : ℚ × ℚ := (frame_width / 2, frame_height / 2)

/-- Source global `full_frame_container_dimensions = [frame_width, frame_height]`. -/
def full_frame_container_dimensions : ℚ × ℚ := (frame_width, frame_height)

/-- Source global `upper_container_dimensions = [frame_width, frame_height/2]`. -/
def upper_container_dimensions : ℚ × ℚ := (frame_width, frame_height / 2)

/-- Source global `lower_container_dimensions = [frame_width, frame_height/2]`. -/
def lower_container_dimensions : ℚ × ℚ := (frame_width, frame_height / 2)

/-- Source global `upper_container_center = [frame_width/2, frame_height/4]`. -/
def upper_container_center : ℚ × ℚ := (frame_width / 2, frame_height / 4)

/-- Source global `lower_container_center = [frame_width/2, frame_height/4*3]`. -/
def lower_container_center : ℚ × ℚ := (frame_width / 2, frame_height / 4 * 3)

/-- Constant `only_actor_time = 5000`: the opening/closing actor-only span in ms. -/
def only_actor_time : ℚ := 5000

/-- A `{"width": w, "height": h}` pair (also used for probed asset
dimensions). -/
structure Size where
  width : ℚ
  height : ℚ
  deriving DecidableEq

/-- A `{"x": _, "y": _, "z": _}` position dictionary. -/
structure Position where
  x : ℚ
  y : ℚ
  z : ℚ
  deriving DecidableEq

/-- A `{"x": s, "y": s}` scale dictionary. -/
structure Scale where
  x : ℚ
  y : ℚ
  deriving DecidableEq

/-- A `{"scale": _, "rotation": _}` transform dictionary. -/
structure Transform where
  scale : Scale
  rotation : ℚ
  deriving DecidableEq

/-- The dictionary returned by `get_position_and_scale`: position,
transform and (intrinsic) size of a placed asset. -/
structure Placement where
  position : Position
  transform : Transform
  size : Size
  deriving DecidableEq

/-- The `fit_dimension` argument of `get_position_and_scale`
(`'width'`, `'height'`, or the `'auto'` default). -/
inductive FitDimension where
  | width
  | height
  | auto
  deriving DecidableEq

/-- The fallback placement returned by the `except` handler of
`get_position_and_scale`: unit scale, canvas-sized `size`, position at the
requested container center, rotation preserved. -/
def fallback_placement (container_center : ℚ × ℚ) (z_index : ℚ)
    (rotation : ℚ) : Placement :=
  { position := { x := container_center.1, y := container_center.2, z := z_index }
    transform := { scale := { x := 1, y := 1 }, rotation := rotation }
    size := { width := frame_width, height := frame_height } }

/-- Function `get_position_and_scale(container_center, asset_url, z_index,
fit_dimension='auto', rotation=0, is_full_frame=False)`.

`resolved` is the outcome of the download-and-probe part of the `try`
block: `some ⟨w, h⟩` are the dimensions the extension-specific probe
produced, `none` models any exception there (download failure, unreadable
media).  When the probe succeeds the scale divides by the asset's width
and/or height; in Python a zero divisor raises `ZeroDivisionError`, which
the same `except` handler turns into the fallback placement, hence the
zero-divisor test below. -/
def get_position_and_scale (container_center : ℚ × ℚ) (resolved : Option Size)
    (z_index : ℚ) (fit_dimension : FitDimension) (rotation : ℚ)
    (is_full_frame : Bool) : Placement :=
  match resolved with
  | none => fallback_placement container_center z_index rotation
  | some wh =>
    let container_dims :=
      if is_full_frame then full_frame_container_dimensions
      else upper_container_dimensions
    let divisor_zero : Bool :=
      match fit_dimension with
      | .width => decide (wh.width = 0)
      | .height => decide (wh.height = 0)
      | .auto => decide (wh.width = 0 ∨ wh.height = 0)
    if divisor_zero then fallback_placement container_center z_index rotation
    else
      let scale :=
        match fit_dimension with
        | .width => container_dims.1 / wh.width
        | .height => container_dims.2 / wh.height
        | .auto =>
          let width_scale := container_dims.1 / wh.width
          let height_scale := container_dims.2 / wh.height
          if wh.width ≥ wh.height then width_scale else height_scale
      { position := { x := container_center.1, y := container_center.2, z := z_index }
        transform := { scale := { x := scale, y := scale }, rotation := rotation }
        size := wh }

/-- The position of any placement is the requested container center with the
requested z-index, on the success path and the fallback path alike. -/
theorem get_position_and_scale_position (container_center : ℚ × ℚ)
    (resolved : Option Size) (z_index : ℚ) (fit_dimension : FitDimension)
    (rotation : ℚ) (is_full_frame : Bool) :
    (get_position_and_scale container_center resolved z_index fit_dimension
      rotation is_full_frame).position =
    { x := container_center.1, y := container_center.2, z := z_index } := by
  unfold get_position_and_scale fallback_placement
  cases resolved with
  | none => rfl
  | some wh =>
    simp only
    split <;> rfl

/-- Clip `type` field: `"video"`, `"image"`, or `"caption"`. -/
inductive ClipType where
  | video
  | image
  | caption
  deriving DecidableEq

/-- A clip's `timeFrame` dictionary.  The `offset` key is present only on
the three actor clips (`none` models its absence). -/
structure TimeFrame where
  start : ℚ
  end_ : ℚ
  offset : Option ℚ
  deriving DecidableEq

/-- One entry of the composition's `clips` array.  The fresh-UUID `id` is
omitted (pure nondeterminism, never read); `volume` is `none` where the
script builds the dictionary without a `volume` key (the AA background
filler). -/
structure Clip where
  type : ClipType
  name : String
  source : String
  timeFrame : TimeFrame
  position : Position
  volume : Option ℚ
  transform : Transform
  size : Size
  deriving DecidableEq

/-- The `metadata` dictionary of the result. -/
structure Metadata where
  backgroundColor : String
  duration : ℚ
  fps : ℚ
  canvas : Size
  name : String
  deriving DecidableEq

/-- The dictionary returned by `create_video_json`. -/
structure VideoJson where
  metadata : Metadata
  clips : List Clip
  deriving DecidableEq

/-- The uncaught Python exception `create_video_json` can raise:
`ZeroDivisionError` from `(total_duration - 2*only_actor_time) /
no_of_screens` when `no_of_screens == 0`. -/
inductive PyError where
  | zeroDivision
  deriving DecidableEq

/-- Python `url.split('/')[-1]`. -/
def last_segment (url : String) : String :=
  (url.splitOn ("/")).getLastD ("")

/-- Python `url.lower().endswith(('mp4', 'mov', 'avi', 'webm'))`. -/
def is_video_url (url : String) : Bool :=
  url.toLower.endsWith ("mp4") || url.toLower.endsWith ("mov") ||
  url.toLower.endsWith ("avi") || url.toLower.endsWith ("webm")

/-- The hard-coded solid-background image used by every AA screen. -/
def background_image_url : String :=
  "https://aiditor-uploads.s3.ap-south-1.amazonaws.com/uploads/05b4fbc3f169175e6deb97b3977175b6.jpg"

/-- The background filler clip of an AA screen, spanning
`[current_time, current_time + duration_of_asset_screens)` at z-index 1. -/
def background_clip (current_time duration_of_asset_screens : ℚ) : Clip :=
  { type := .image
    name := "background"
    source := background_image_url
    timeFrame := { start := current_time
                   end_ := current_time + duration_of_asset_screens
                   offset := none }
    position := { x := frame_width / 2, y := frame_height / 2, z := 1 }
    volume := none
    transform := { scale := { x := 1, y := 1 }, rotation := 0 }
    size := { width := frame_width, height := frame_height } }

/-- A supplementary-asset clip: the asset placed (fit `auto`, z-index 2)
in the container whose center is `center`, spanning
`[current_time, current_time + duration_of_asset_screens)`. -/
def asset_clip (resolve : String → Option Size) (url : String)
    (center : ℚ × ℚ) (current_time duration_of_asset_screens : ℚ) : Clip :=
  let placement := get_position_and_scale center (resolve url) 2 .auto 0 false
  { type := if is_video_url url then .video else .image
    name := last_segment url
    source := url
    timeFrame := { start := current_time
                   end_ := current_time + duration_of_asset_screens
                   offset := none }
    position := placement.position
    volume := some 1
    transform := placement.transform
    size := placement.size }

/-- The single continuous actor clip emitted on the first AD screen:
placed in the lower container (fit `auto`, z-index 0), spanning
`[only_actor_time, total_duration - only_actor_time)` with offset
`max(0, only_actor_time - 0.1)`. -/
def continuous_actor_clip (resolve : String → Option Size)
    (actor_video_url : String) (total_duration : ℚ) : Clip :=
  let placement :=
    get_position_and_scale lower_container_center (resolve actor_video_url)
      0 .auto 0 false
  { type := .video
    name := last_segment actor_video_url
    source := actor_video_url
    timeFrame := { start := only_actor_time
                   end_ := total_duration - only_actor_time
                   offset := some (max 0 (only_actor_time - 1 / 10)) }
    position := placement.position
    volume := some 1
    transform := placement.transform
    size := placement.size }

/-- One AA screen: background filler, then the next two assets in the
upper and lower containers.  Consumes assets `idx` and `idx + 1`. -/
def aa_screen (resolve : String → Option Size) (assets : List String)
    (current_time duration_of_asset_screens : ℚ) (idx : ℕ) : List Clip :=
  [background_clip current_time duration_of_asset_screens,
   asset_clip resolve (assets.getD idx ("")) upper_container_center
     current_time duration_of_asset_screens,
   asset_clip resolve (assets.getD (idx + 1) "") lower_container_center
     current_time duration_of_asset_screens]

/-- One AD screen: the next asset in the upper container, plus — exactly
when `remaining_ad` still equals the original `AD` count, i.e. on the
first AD screen — the continuous actor clip.  Consumes asset `idx`. -/
def ad_screen (resolve : String → Option Size) (assets : List String)
    (actor_video_url : String) (total_duration : ℚ)
    (duration_of_asset_screens : ℚ) (AD remaining_ad : ℕ)
    (current_time : ℚ) (idx : ℕ) : List Clip :=
  asset_clip resolve (assets.getD idx ("")) upper_container_center
    current_time duration_of_asset_screens ::
  (if remaining_ad = AD then
    [continuous_actor_clip resolve actor_video_url total_duration]
  else [])

/-- The `while remaining_aa > 0 or remaining_ad > 0` loop of
`create_video_json`.  One call is one loop iteration: an AA screen when
`remaining_aa > 0` (consuming two assets and one segment of time), then an
AD screen when `remaining_ad > 0` (consuming one asset and one segment).
The four branches below are the four combinations of those two `if`s. -/
def middle_rounds (resolve : String → Option Size) (assets : List String)
    (actor_video_url : String) (total_duration : ℚ)
    (duration_of_asset_screens : ℚ) (AD : ℕ)
    (remaining_aa remaining_ad : ℕ) (current_time : ℚ) (idx : ℕ) :
    List Clip :=
  if remaining_aa = 0 ∧ remaining_ad = 0 then []
  else if 0 < remaining_aa ∧ 0 < remaining_ad then
    aa_screen resolve assets current_time duration_of_asset_screens idx ++
    ad_screen resolve assets actor_video_url total_duration
      duration_of_asset_screens AD remaining_ad
      (current_time + duration_of_asset_screens) (idx + 2) ++
    middle_rounds resolve assets actor_video_url total_duration
      duration_of_asset_screens AD (remaining_aa - 1) (remaining_ad - 1)
      (current_time + 2 * duration_of_asset_screens) (idx + 3)
  else if 0 < remaining_aa then
    aa_screen resolve assets current_time duration_of_asset_screens idx ++
    middle_rounds resolve assets actor_video_url total_duration
      duration_of_asset_screens AD (remaining_aa - 1) remaining_ad
      (current_time + duration_of_asset_screens) (idx + 2)
  else
    ad_screen resolve assets actor_video_url total_duration
      duration_of_asset_screens AD remaining_ad current_time idx ++
    middle_rounds resolve assets actor_video_url total_duration
      duration_of_asset_screens AD remaining_aa (remaining_ad - 1)
      (current_time + duration_of_asset_screens) (idx + 1)
termination_by remaining_aa + remaining_ad
decreasing_by all_goals omega

/-- An opening or closing full-screen actor clip (fit `height`, z-index 0,
full-frame container), spanning `[start, end_)` with the given offset. -/
def actor_frame_clip (resolve : String → Option Size)
    (actor_video_url : String) (start end_ offset : ℚ) : Clip :=
  let placement :=
    get_position_and_scale frame_center (resolve actor_video_url)
      0 .height 0 true
  { type := .video
    name := last_segment actor_video_url
    source := actor_video_url
    timeFrame := { start := start, end_ := end_, offset := some offset }
    position := placement.position
    volume := some 1
    transform := placement.transform
    size := placement.size }

/-- Function `create_video_json(actor_video_url, total_duration, assets,
captions_clip=None, background_color_hex="#000000")`.

Partition: `P = floor(n/3)`, `AD = n - 2*P`, `AA = P`,
`no_of_screens = AA + AD`,
`duration_of_asset_screens = (total_duration - 2*only_actor_time) /
no_of_screens` — in Python the division raises `ZeroDivisionError` when
`no_of_screens == 0`, modelled by the `Except.error` branch.  The clips
are the opening actor clip, the middle screens, the closing actor clip,
and the caption clip when supplied. -/
def create_video_json (resolve : String → Option Size)
    (actor_video_url : String) (total_duration : ℚ) (assets : List String)
    (captions_clip : Option Clip) (background_color_hex : String) :
    Except PyError VideoJson :=
  let n := assets.length
  let P := n / 3
  let AD := n - 2 * P
  let AA := P
  let no_of_screens := AA + AD
  if no_of_screens = 0 then Except.error PyError.zeroDivision
  else
    let duration_of_asset_screens :=
      (total_duration - 2 * only_actor_time) / (no_of_screens : ℚ)
    let opening :=
      actor_frame_clip resolve actor_video_url 0 only_actor_time 0
    let middle :=
      middle_rounds resolve assets actor_video_url total_duration
        duration_of_asset_screens AD AA AD only_actor_time 0
    let closing :=
      actor_frame_clip resolve actor_video_url
        (total_duration - only_actor_time) total_duration
        (total_duration - only_actor_time)
    let clips :=
      opening :: middle ++ [closing] ++
      (match captions_clip with
       | some c => [c]
       | none => [])
    Except.ok
      { metadata :=
          { backgroundColor := background_color_hex
            duration := total_duration
            fps := 25
            canvas := { width := frame_width, height := frame_height }
            name := "Reels AI Template" }
        clips := clips }

theorem middle_rounds_nil (resolve : String → Option Size) (assets : List String)
    (act : String) (D seg : ℚ) (AD : ℕ) (t : ℚ) (idx : ℕ) :
    middle_rounds resolve assets act D seg AD 0 0 t idx = [] := by
  rw [middle_rounds.eq_def]
  simp

theorem middle_rounds_both (resolve : String → Option Size) (assets : List String)
    (act : String) (D seg : ℚ) (AD : ℕ) (aa ad : ℕ) (t : ℚ) (idx : ℕ)
    (haa : 0 < aa) (had : 0 < ad) :
    middle_rounds resolve assets act D seg AD aa ad t idx =
      aa_screen resolve assets t seg idx ++
      ad_screen resolve assets act D seg AD ad (t + seg) (idx + 2) ++
      middle_rounds resolve assets act D seg AD (aa - 1) (ad - 1)
        (t + 2 * seg) (idx + 3) := by
  rw [middle_rounds.eq_def]
  simp [Nat.pos_iff_ne_zero.mp haa, Nat.pos_iff_ne_zero.mp had, haa, had]

theorem middle_rounds_aa_only (resolve : String → Option Size) (assets : List String)
    (act : String) (D seg : ℚ) (AD : ℕ) (aa : ℕ) (t : ℚ) (idx : ℕ)
    (haa : 0 < aa) :
    middle_rounds resolve assets act D seg AD aa 0 t idx =
      aa_screen resolve assets t seg idx ++
      middle_rounds resolve assets act D seg AD (aa - 1) 0
        (t + seg) (idx + 2) := by
  rw [middle_rounds.eq_def]
  simp [Nat.pos_iff_ne_zero.mp haa, haa]

theorem middle_rounds_ad_only (resolve : String → Option Size) (assets : List String)
    (act : String) (D seg : ℚ) (AD : ℕ) (ad : ℕ) (t : ℚ) (idx : ℕ)
    (had : 0 < ad) :
    middle_rounds resolve assets act D seg AD 0 ad t idx =
      ad_screen resolve assets act D seg AD ad t idx ++
      middle_rounds resolve assets act D seg AD 0 (ad - 1)
        (t + seg) (idx + 1) := by
  rw [middle_rounds.eq_def]
  simp [Nat.pos_iff_ne_zero.mp had]

theorem asset_clip_position (resolve : String → Option Size) (url : String)
    (center : ℚ × ℚ) (t seg : ℚ) :
    (asset_clip resolve url center t seg).position =
      { x := center.1, y := center.2, z := 2 } := by
  simp [asset_clip, get_position_and_scale_position]

theorem continuous_actor_clip_position (resolve : String → Option Size)
    (act : String) (D : ℚ) :
    (continuous_actor_clip resolve act D).position =
      { x := lower_container_center.1, y := lower_container_center.2, z := 0 } := by
  simp [continuous_actor_clip, get_position_and_scale_position]

theorem actor_frame_clip_position (resolve : String → Option Size)
    (act : String) (s e o : ℚ) :
    (actor_frame_clip resolve act s e o).position =
      { x := frame_center.1, y := frame_center.2, z := 0 } := by
  simp [actor_frame_clip, get_position_and_scale_position]

theorem aa_screen_filter_z2 (resolve : String → Option Size) (assets : List String)
    (t seg : ℚ) (idx : ℕ) :
    (aa_screen resolve assets t seg idx).filter
        (fun c => decide (c.position.z = 2)) =
      [asset_clip resolve (assets.getD idx ("")) upper_container_center t seg,
       asset_clip resolve (assets.getD (idx + 1) "") lower_container_center t seg] := by
  simp [aa_screen, List.filter, background_clip, asset_clip_position]

theorem ad_screen_filter_z2 (resolve : String → Option Size) (assets : List String)
    (act : String) (D seg : ℚ) (AD ad : ℕ) (t : ℚ) (idx : ℕ) :
    (ad_screen resolve assets act D seg AD ad t idx).filter
        (fun c => decide (c.position.z = 2)) =
      [asset_clip resolve (assets.getD idx ("")) upper_container_center t seg] := by
  by_cases h : ad = AD <;>
    simp [ad_screen, List.filter, h, asset_clip_position, continuous_actor_clip_position]

theorem middle_rounds_sources_aux (resolve : String → Option Size)
    (assets : List String) (act : String) (D seg : ℚ) (AD : ℕ) :
    ∀ (fuel aa ad : ℕ) (t : ℚ) (idx : ℕ), aa + ad ≤ fuel →
      ((middle_rounds resolve assets act D seg AD aa ad t idx).filter
          (fun c => decide (c.position.z = 2))).map (fun c => c.source) =
        (List.range' idx (2 * aa + ad)).map (fun k => assets.getD k ("")) := by
  intro fuel
  induction fuel with
  | zero =>
    intro aa ad t idx h
    have haa : aa = 0 := by omega
    have had : ad = 0 := by omega
    subst haa; subst had
    simp [middle_rounds_nil]
  | succ n ih =>
    intro aa ad t idx h
    rcases Nat.eq_zero_or_pos aa with haa | haa
    · rcases Nat.eq_zero_or_pos ad with had | had
      · subst haa; subst had; simp [middle_rounds_nil]
      · subst haa
        rw [middle_rounds_ad_only _ _ _ _ _ _ _ _ _ had,
          List.filter_append, List.map_append, ad_screen_filter_z2,
          ih _ _ _ _ (by omega)]
        have h2 : 2 * 0 + ad = (2 * 0 + (ad - 1)) + 1 := by omega
        rw [h2, List.range'_succ]
        simp [asset_clip]
    · rcases Nat.eq_zero_or_pos ad with had | had
      · subst had
        rw [middle_rounds_aa_only _ _ _ _ _ _ _ _ _ haa,
          List.filter_append, List.map_append, aa_screen_filter_z2,
          ih _ _ _ _ (by omega)]
        have h2 : 2 * aa + 0 = ((2 * (aa - 1) + 0) + 1) + 1 := by omega
        rw [h2, List.range'_succ, List.range'_succ]
        simp [asset_clip]
      · rw [middle_rounds_both _ _ _ _ _ _ _ _ _ _ haa had,
          List.filter_append, List.filter_append, List.map_append,
          List.map_append, aa_screen_filter_z2, ad_screen_filter_z2,
          ih _ _ _ _ (by omega)]
        have h2 : 2 * aa + ad = (((2 * (aa - 1) + (ad - 1)) + 1) + 1) + 1 := by
          omega
        rw [h2, List.range'_succ, List.range'_succ, List.range'_succ]
        simp [asset_clip]

theorem map_getD_range_length (l : List String) :
    (List.range' 0 l.length).map (fun k => l.getD k ("")) = l := by
  rw [← List.range_eq_range']
  apply List.ext_getElem
  · simp
  · intro i h1 h2
    simp [List.getD_eq_getElem?_getD, List.getElem?_eq_getElem h2]

/-- C1: for every supplementary-asset list of length `n ≥ 1` the synthesizer
computes `P = floor(n/3)`, `AA = P`, `AD = n - 2*P`, so that
`AA*2 + AD = n`, and the middle-section loop consumes every supplementary
asset exactly once, in the original list order: the supplementary-asset
clips of the document (the clips at z-index 2), read in emission order,
have exactly the asset list as their sources. -/
theorem C1_partition_consumes_all_assets (resolve : String → Option Size)
    (actor_video_url : String) (total_duration : ℚ) (assets : List String)
    (background_color_hex : String) (hn : 1 ≤ assets.length) :
    2 * (assets.length / 3) +
        (assets.length - 2 * (assets.length / 3)) = assets.length ∧
    ∃ doc,
      create_video_json resolve actor_video_url total_duration assets none
          background_color_hex = Except.ok doc ∧
      (doc.clips.filter (fun c => decide (c.position.z = 2))).map
          (fun c => c.source) = assets := by
  constructor
  · omega
  · have hscreens : ¬ (assets.length / 3 +
        (assets.length - 2 * (assets.length / 3)) = 0) := by omega
    simp only [create_video_json, if_neg hscreens]
    refine ⟨_, rfl, ?_⟩
    dsimp only
    simp only [List.filter_cons, List.filter_append, List.filter_nil,
      actor_frame_clip_position, List.append_nil]
    norm_num
    rw [middle_rounds_sources_aux resolve assets actor_video_url
      total_duration _ _ (assets.length / 3 +
        (assets.length - 2 * (assets.length / 3)))
      _ _ _ _ (le_refl _)]
    have h2 : 2 * (assets.length / 3) +
        (assets.length - 2 * (assets.length / 3)) = assets.length := by omega
    rw [h2, map_getD_range_length]

/-- C1 witness. -/
theorem C1_partition_consumes_all_assets_witness :
    2 * ((["a.jpg", "b.jpg", "c.jpg", "d.jpg", "e.jpg"] : List String).length / 3) +
        ((["a.jpg", "b.jpg", "c.jpg", "d.jpg", "e.jpg"] : List String).length -
          2 * ((["a.jpg", "b.jpg", "c.jpg", "d.jpg", "e.jpg"] : List String).length / 3)) =
      (["a.jpg", "b.jpg", "c.jpg", "d.jpg", "e.jpg"] : List String).length ∧
    ∃ doc,
      create_video_json (fun _ => none) "actor.mp4" 65000
          ["a.jpg", "b.jpg", "c.jpg", "d.jpg", "e.jpg"] none ("#000000") =
        Except.ok doc ∧
      (doc.clips.filter (fun c => decide (c.position.z = 2))).map
          (fun c => c.source) = ["a.jpg", "b.jpg", "c.jpg", "d.jpg", "e.jpg"] :=
  C1_partition_consumes_all_assets (fun _ => none) "actor.mp4" 65000
    ["a.jpg", "b.jpg", "c.jpg", "d.jpg", "e.jpg"] "#000000" (by decide)

/-- C3: with zero supplementary assets the synthesizer performs the
division `(total_duration - 2*only_actor_time) / no_of_screens` with
`no_of_screens = 0`: it raises an unguarded `ZeroDivisionError`, not a
typed configuration error — there is no guard in the code. -/
theorem C3_empty_assets_zero_division (resolve : String → Option Size)
    (actor_video_url : String) (total_duration : ℚ)
    (captions_clip : Option Clip) (background_color_hex : String) :
    create_video_json resolve actor_video_url total_duration []
        captions_clip background_color_hex =
      Except.error PyError.zeroDivision := rfl

/-- C9: the produced document's metadata is fully determined: background
color as supplied, duration as supplied, fps 25, canvas 1080×1920, name
"Reels AI Template" — independent of the assets and the caption clip. -/
theorem C9_metadata_determined (resolve : String → Option Size)
    (actor_video_url : String) (total_duration : ℚ) (assets : List String)
    (captions_clip : Option Clip) (background_color_hex : String)
    (hn : 1 ≤ assets.length) :
    ∃ doc,
      create_video_json resolve actor_video_url total_duration assets
          captions_clip background_color_hex = Except.ok doc ∧
      doc.metadata =
        { backgroundColor := background_color_hex
          duration := total_duration
          fps := 25
          canvas := { width := 1080, height := 1920 }
          name := "Reels AI Template" } := by
  have hscreens : ¬ (assets.length / 3 +
      (assets.length - 2 * (assets.length / 3)) = 0) := by omega
  simp only [create_video_json, if_neg hscreens]
  exact ⟨_, rfl, rfl⟩

/-- C9 witness. -/
theorem C9_metadata_determined_witness :
    ∃ doc,
      create_video_json (fun _ => some ⟨720, 1280⟩) "actor.mp4" 30000
          ["a.jpg"] none ("#123456") = Except.ok doc ∧
      doc.metadata =
        { backgroundColor := "#123456"
          duration := 30000
          fps := 25
          canvas := { width := 1080, height := 1920 }
          name := "Reels AI Template" } :=
  C9_metadata_determined (fun _ => some ⟨720, 1280⟩) "actor.mp4" 30000
    ["a.jpg"] none ("#123456") (by decide)

/-- A named container: center, dimensions and whether the script addresses
it through the `is_full_frame` flag of `get_position_and_scale`. -/
structure Container where
  center : ℚ × ℚ
  dims : ℚ × ℚ
  is_full_frame : Bool

/-- The full-frame container (1080×1920, centered on the canvas). -/
def fullFrame_container : Container :=
  ⟨frame_center, full_frame_container_dimensions, true⟩

/-- The upper container (1080×960, centered in the top half). -/
def upper_container : Container :=
  ⟨upper_container_center, upper_container_dimensions, false⟩

/-- The lower container (1080×960, centered in the bottom half). -/
def lower_container : Container :=
  ⟨lower_container_center, lower_container_dimensions, false⟩

/-- C5: for every asset of positive intrinsic dimensions and every
container, the fit computation returns a uniform scale with position at the
container's center; `width` mode scales by container.width / asset.width,
`height` mode by container.height / asset.height, and `auto` picks the
width-based scale when width ≥ height, else the height-based one.  In
particular a 1000×500 asset fit by width into a 1080-wide container gets
scale 1.08. -/
theorem C5_fit_computation (w h : ℚ) (hw : 0 < w) (hh : 0 < h) :
    (∀ c ∈ [fullFrame_container, upper_container, lower_container],
      ∀ (fit : FitDimension) (z rot : ℚ),
      let p := get_position_and_scale c.center (some ⟨w, h⟩) z fit rot
        c.is_full_frame
      p.transform.scale.x = p.transform.scale.y ∧
      p.position.x = c.center.1 ∧ p.position.y = c.center.2 ∧
      (fit = .width → p.transform.scale.x = c.dims.1 / w) ∧
      (fit = .height → p.transform.scale.x = c.dims.2 / h) ∧
      (fit = .auto → p.transform.scale.x =
        if h ≤ w then c.dims.1 / w else c.dims.2 / h)) ∧
    (get_position_and_scale upper_container_center (some ⟨1000, 500⟩) 2
        .width 0 false).transform.scale.x = 108 / 100 := by
  constructor
  · intro c hc fit z rot
    fin_cases hc <;> cases fit <;>
      simp [get_position_and_scale, fullFrame_container, upper_container,
        lower_container, full_frame_container_dimensions,
        upper_container_dimensions, lower_container_dimensions,
        frame_width, frame_height, hw.ne', hh.ne', ge_iff_le]
  · norm_num [get_position_and_scale, upper_container_dimensions,
      frame_width, frame_height]

/-- C5 witness. -/
theorem C5_fit_computation_witness :
    (∀ c ∈ [fullFrame_container, upper_container, lower_container],
      ∀ (fit : FitDimension) (z rot : ℚ),
      let p := get_position_and_scale c.center (some ⟨1000, 500⟩) z fit rot
        c.is_full_frame
      p.transform.scale.x = p.transform.scale.y ∧
      p.position.x = c.center.1 ∧ p.position.y = c.center.2 ∧
      (fit = .width → p.transform.scale.x = c.dims.1 / 1000) ∧
      (fit = .height → p.transform.scale.x = c.dims.2 / 500) ∧
      (fit = .auto → p.transform.scale.x =
        if (500 : ℚ) ≤ 1000 then c.dims.1 / 1000 else c.dims.2 / 500)) ∧
    (get_position_and_scale upper_container_center (some ⟨1000, 500⟩) 2
        .width 0 false).transform.scale.x = 108 / 100 :=
  C5_fit_computation 1000 500 (by norm_num) (by norm_num)

/-- C10: for any asset (resolved or not) and any fit mode, a non-full-frame
fit into the lower container produces exactly the same transform (scale)
and size as into the upper container — the computation reads only
`upper_container_dimensions` — and the placements differ only in the
position's y coordinate (1440 vs 480). -/
theorem C10_lower_fit_equals_upper_fit (resolved : Option Size) (z : ℚ)
    (fit : FitDimension) (rot : ℚ) :
    let pl := get_position_and_scale lower_container_center resolved z fit
      rot false
    let pu := get_position_and_scale upper_container_center resolved z fit
      rot false
    pl.transform = pu.transform ∧ pl.size = pu.size ∧
    pl.position.x = pu.position.x ∧ pl.position.z = pu.position.z ∧
    pl.position.y = 1440 ∧ pu.position.y = 480 := by
  cases resolved with
  | none =>
    simp [get_position_and_scale, fallback_placement, lower_container_center,
      upper_container_center, frame_width, frame_height]
    norm_num
  | some wh =>
    simp only [get_position_and_scale]
    split <;>
      simp [fallback_placement, lower_container_center,
        upper_container_center, frame_width, frame_height] <;>
      norm_num

theorem middle_rounds_length_aux (resolve : String → Option Size)
    (assets : List String) (act : String) (D seg : ℚ) (AD' : ℕ) :
    ∀ (fuel aa ad : ℕ) (t : ℚ) (idx : ℕ), aa + ad ≤ fuel → ad ≤ AD' →
      (middle_rounds resolve assets act D seg AD' aa ad t idx).length =
        3 * aa + ad + (if 0 < ad ∧ ad = AD' then 1 else 0) := by
  intro fuel
  induction fuel with
  | zero =>
    intro aa ad t idx h hle
    have haa : aa = 0 := by omega
    have had : ad = 0 := by omega
    subst haa; subst had
    simp [middle_rounds_nil]
  | succ n ih =>
    intro aa ad t idx h hle
    rcases Nat.eq_zero_or_pos aa with haa | haa
    · rcases Nat.eq_zero_or_pos ad with had | had
      · subst haa; subst had; simp [middle_rounds_nil]
      · subst haa
        rw [middle_rounds_ad_only _ _ _ _ _ _ _ _ _ had,
          List.length_append, ih _ _ _ _ (by omega) (by omega),
          if_neg (by omega)]
        by_cases hAD : ad = AD'
        · have hADpos : 0 < AD' := hAD ▸ had
          simp [ad_screen, hAD, hADpos]
          omega
        · simp [ad_screen, hAD, had]
          omega
    · rcases Nat.eq_zero_or_pos ad with had | had
      · subst had
        rw [middle_rounds_aa_only _ _ _ _ _ _ _ _ _ haa,
          List.length_append, ih _ _ _ _ (by omega) (by omega)]
        simp [aa_screen]
        omega
      · rw [middle_rounds_both _ _ _ _ _ _ _ _ _ _ haa had,
          List.length_append, List.length_append,
          ih _ _ _ _ (by omega) (by omega), if_neg (by omega)]
        by_cases hAD : ad = AD'
        · have hADpos : 0 < AD' := hAD ▸ had
          simp [aa_screen, ad_screen, hAD, hADpos]
          omega
        · simp [aa_screen, ad_screen, hAD, had]
          omega

/-- C6: the fit computation never raises on a resolution or probing
failure: it returns the exact fallback placement — unit scale `{1,1}`,
size equal to the canvas size 1080×1920 (not the container's size),
position at the requested container's center, requested rotation
preserved — and synthesis of the remaining clips is unaffected: the
document produced by `create_video_json` has the same outcome shape and
the same number of clips whatever the resolution outcomes are. -/
theorem C6_fallback_placement :
    (∀ (center : ℚ × ℚ) (z : ℚ) (fit : FitDimension) (rot : ℚ) (ff : Bool),
      get_position_and_scale center none z fit rot ff =
        { position := { x := center.1, y := center.2, z := z }
          transform := { scale := { x := 1, y := 1 }, rotation := rot }
          size := { width := 1080, height := 1920 } }) ∧
    (∀ (resolve resolve' : String → Option Size) (act : String) (D : ℚ)
      (assets : List String) (cap : Option Clip) (bg : String),
      Except.map (fun d => d.clips.length)
          (create_video_json resolve act D assets cap bg) =
        Except.map (fun d => d.clips.length)
          (create_video_json resolve' act D assets cap bg)) := by
  constructor
  · intro center z fit rot ff
    rfl
  · intro resolve resolve' act D assets cap bg
    by_cases hscreens : assets.length / 3 +
        (assets.length - 2 * (assets.length / 3)) = 0
    · simp [create_video_json, hscreens]
    · simp only [create_video_json, if_neg hscreens, Except.map]
      cases cap <;>
        simp [middle_rounds_length_aux _ _ _ _ _ _
            (assets.length / 3 + (assets.length - 2 * (assets.length / 3)))
            _ _ _ _ (le_refl _) (le_refl _)]

theorem aa_screen_filter_z0 (resolve : String → Option Size)
    (assets : List String) (t seg : ℚ) (idx : ℕ) :
    (aa_screen resolve assets t seg idx).filter
        (fun c => decide (c.position.z = 0)) = [] := by
  simp [aa_screen, List.filter, background_clip, asset_clip_position]

theorem ad_screen_filter_z0 (resolve : String → Option Size)
    (assets : List String) (act : String) (D seg : ℚ) (AD' ad : ℕ)
    (t : ℚ) (idx : ℕ) :
    (ad_screen resolve assets act D seg AD' ad t idx).filter
        (fun c => decide (c.position.z = 0)) =
      if ad = AD' then [continuous_actor_clip resolve act D] else [] := by
  by_cases h : ad = AD' <;>
    simp [ad_screen, List.filter, h, asset_clip_position,
      continuous_actor_clip_position]

theorem middle_rounds_filter_z0_aux (resolve : String → Option Size)
    (assets : List String) (act : String) (D seg : ℚ) (AD' : ℕ) :
    ∀ (fuel aa ad : ℕ) (t : ℚ) (idx : ℕ), aa + ad ≤ fuel → ad ≤ AD' →
      (middle_rounds resolve assets act D seg AD' aa ad t idx).filter
          (fun c => decide (c.position.z = 0)) =
        if 0 < ad ∧ ad = AD' then [continuous_actor_clip resolve act D]
        else [] := by
  intro fuel
  induction fuel with
  | zero =>
    intro aa ad t idx h hle
    have haa : aa = 0 := by omega
    have had : ad = 0 := by omega
    subst haa; subst had
    simp [middle_rounds_nil]
  | succ n ih =>
    intro aa ad t idx h hle
    rcases Nat.eq_zero_or_pos aa with haa | haa
    · rcases Nat.eq_zero_or_pos ad with had | had
      · subst haa; subst had; simp [middle_rounds_nil]
      · subst haa
        rw [middle_rounds_ad_only _ _ _ _ _ _ _ _ _ had,
          List.filter_append, ad_screen_filter_z0,
          ih _ _ _ _ (by omega) (by omega),
          if_neg (show ¬ (0 < ad - 1 ∧ ad - 1 = AD') by omega)]
        by_cases hAD : ad = AD'
        · have hADpos : 0 < AD' := hAD ▸ had
          simp [hAD, hADpos]
        · simp [hAD, had]
    · rcases Nat.eq_zero_or_pos ad with had | had
      · subst had
        rw [middle_rounds_aa_only _ _ _ _ _ _ _ _ _ haa,
          List.filter_append, aa_screen_filter_z0,
          ih _ _ _ _ (by omega) (by omega)]
        simp
      · rw [middle_rounds_both _ _ _ _ _ _ _ _ _ _ haa had,
          List.filter_append, List.filter_append, aa_screen_filter_z0,
          ad_screen_filter_z0, ih _ _ _ _ (by omega) (by omega),
          if_neg (show ¬ (0 < ad - 1 ∧ ad - 1 = AD') by omega)]
        by_cases hAD : ad = AD'
        · have hADpos : 0 < AD' := hAD ▸ had
          simp [hAD, hADpos]
        · simp [hAD, had]

/-- C4: for every input with `n ≥ 1` supplementary assets, exactly one
continuous actor clip is emitted in the middle section (the only middle
clip at z-index 0), placed in the lower container with z-index 0, spanning
the entire range `[only_actor_time, total_duration - only_actor_time)`
with offset `max(0, only_actor_time - 0.1)`, and never re-emitted on later
AD screens.  It is emitted inside the AD screen whose `remaining_ad` still
equals the original `AD` count (the first one). -/
theorem C4_one_continuous_actor_clip (resolve : String → Option Size)
    (actor_video_url : String) (total_duration : ℚ) (assets : List String)
    (background_color_hex : String) (hn : 1 ≤ assets.length) :
    ∃ doc middle,
      create_video_json resolve actor_video_url total_duration assets none
          background_color_hex = Except.ok doc ∧
      doc.clips =
        actor_frame_clip resolve actor_video_url 0 only_actor_time 0 ::
          middle ++
          [actor_frame_clip resolve actor_video_url
            (total_duration - only_actor_time) total_duration
            (total_duration - only_actor_time)] ∧
      middle.filter (fun c => decide (c.position.z = 0)) =
        [continuous_actor_clip resolve actor_video_url total_duration] ∧
      (continuous_actor_clip resolve actor_video_url
          total_duration).timeFrame =
        { start := only_actor_time
          end_ := total_duration - only_actor_time
          offset := some (max 0 (only_actor_time - 1 / 10)) } ∧
      (continuous_actor_clip resolve actor_video_url
          total_duration).position =
        { x := lower_container_center.1, y := lower_container_center.2
          z := 0 } := by
  have hscreens : ¬ (assets.length / 3 +
      (assets.length - 2 * (assets.length / 3)) = 0) := by omega
  simp only [create_video_json, if_neg hscreens]
  refine ⟨_, middle_rounds resolve assets actor_video_url total_duration
      ((total_duration - 2 * only_actor_time) /
        ((assets.length / 3 +
          (assets.length - 2 * (assets.length / 3)) : ℕ) : ℚ))
      (assets.length - 2 * (assets.length / 3)) (assets.length / 3)
      (assets.length - 2 * (assets.length / 3)) only_actor_time 0,
    rfl, by simp, ?_, rfl, continuous_actor_clip_position _ _ _⟩
  rw [middle_rounds_filter_z0_aux _ _ _ _ _ _
    (assets.length / 3 + (assets.length - 2 * (assets.length / 3)))
    _ _ _ _ (le_refl _) (le_refl _)]
  rw [if_pos (by omega)]

/-- C4 witness. -/
theorem C4_one_continuous_actor_clip_witness :
    ∃ doc middle,
      create_video_json (fun _ => none) "actor.mp4" 65000 ["a.jpg"] none
          "#000000" = Except.ok doc ∧
      doc.clips =
        actor_frame_clip (fun _ => none) "actor.mp4" 0 only_actor_time 0 ::
          middle ++
          [actor_frame_clip (fun _ => none) "actor.mp4"
            (65000 - only_actor_time) 65000 (65000 - only_actor_time)] ∧
      middle.filter (fun c => decide (c.position.z = 0)) =
        [continuous_actor_clip (fun _ => none) "actor.mp4" 65000] ∧
      (continuous_actor_clip (fun _ => none) "actor.mp4" 65000).timeFrame =
        { start := only_actor_time
          end_ := 65000 - only_actor_time
          offset := some (max 0 (only_actor_time - 1 / 10)) } ∧
      (continuous_actor_clip (fun _ => none) "actor.mp4" 65000).position =
        { x := lower_container_center.1, y := lower_container_center.2
          z := 0 } :=
  C4_one_continuous_actor_clip (fun _ => none) "actor.mp4" 65000 ["a.jpg"]
    "#000000" (by decide)

theorem aa_screen_timeframe (resolve : String → Option Size)
    (assets : List String) (t seg : ℚ) (idx : ℕ) :
    ∀ c ∈ aa_screen resolve assets t seg idx,
      c.timeFrame.start = t ∧ c.timeFrame.end_ = t + seg := by
  intro c hc
  simp only [aa_screen, List.mem_cons, List.mem_singleton,
    List.not_mem_nil, or_false] at hc
  rcases hc with h | h | h <;> subst h <;>
    simp [background_clip, asset_clip]

theorem ad_screen_timeframe (resolve : String → Option Size)
    (assets : List String) (act : String) (D seg : ℚ) (AD' ad : ℕ)
    (t : ℚ) (idx : ℕ) :
    ∀ c ∈ ad_screen resolve assets act D seg AD' ad t idx,
      c.position.z ≠ 0 →
      c.timeFrame.start = t ∧ c.timeFrame.end_ = t + seg := by
  intro c hc hz
  by_cases h : ad = AD'
  · simp only [ad_screen, h, if_true, eq_self_iff_true, List.mem_cons,
      List.mem_singleton, List.not_mem_nil, or_false] at hc
    rcases hc with h1 | h1
    · subst h1; simp [asset_clip]
    · exfalso
      apply hz
      rw [h1, continuous_actor_clip_position]
  · simp only [ad_screen, if_neg h, List.mem_cons, List.not_mem_nil,
      or_false] at hc
    subst hc
    simp [asset_clip]

theorem middle_rounds_tile_mem_aux (resolve : String → Option Size)
    (assets : List String) (act : String) (D seg : ℚ) (AD' : ℕ) :
    ∀ (fuel aa ad : ℕ) (t : ℚ) (idx : ℕ), aa + ad ≤ fuel →
      ∀ c ∈ middle_rounds resolve assets act D seg AD' aa ad t idx,
        c.position.z ≠ 0 →
        ∃ k : ℕ, k < aa + ad ∧
          c.timeFrame.start = t + k * seg ∧
          c.timeFrame.end_ = t + (k + 1) * seg := by
  intro fuel
  induction fuel with
  | zero =>
    intro aa ad t idx h c hc hz
    have haa : aa = 0 := by omega
    have had : ad = 0 := by omega
    subst haa; subst had
    rw [middle_rounds_nil] at hc
    exact absurd hc (List.not_mem_nil c)
  | succ n ih =>
    intro aa ad t idx h c hc hz
    rcases Nat.eq_zero_or_pos aa with haa | haa
    · rcases Nat.eq_zero_or_pos ad with had | had
      · subst haa; subst had
        rw [middle_rounds_nil] at hc
        exact absurd hc (List.not_mem_nil c)
      · subst haa
        rw [middle_rounds_ad_only _ _ _ _ _ _ _ _ _ had,
          List.mem_append] at hc
        rcases hc with hc | hc
        · obtain ⟨h1, h2⟩ := ad_screen_timeframe _ _ _ _ _ _ _ _ _ c hc hz
          exact ⟨0, by omega, by rw [h1]; push_cast; ring,
            by rw [h2]; push_cast; ring⟩
        · obtain ⟨k, hk, h1, h2⟩ := ih _ _ _ _ (by omega) c hc hz
          refine ⟨k + 1, by omega, ?_, ?_⟩
          · rw [h1]; push_cast; ring
          · rw [h2]; push_cast; ring
    · rcases Nat.eq_zero_or_pos ad with had | had
      · subst had
        rw [middle_rounds_aa_only _ _ _ _ _ _ _ _ _ haa,
          List.mem_append] at hc
        rcases hc with hc | hc
        · obtain ⟨h1, h2⟩ := aa_screen_timeframe _ _ _ _ _ c hc
          exact ⟨0, by omega, by rw [h1]; push_cast; ring,
            by rw [h2]; push_cast; ring⟩
        · obtain ⟨k, hk, h1, h2⟩ := ih _ _ _ _ (by omega) c hc hz
          refine ⟨k + 1, by omega, ?_, ?_⟩
          · rw [h1]; push_cast; ring
          · rw [h2]; push_cast; ring
      · rw [middle_rounds_both _ _ _ _ _ _ _ _ _ _ haa had,
          List.mem_append, List.mem_append] at hc
        rcases hc with (hc | hc) | hc
        · obtain ⟨h1, h2⟩ := aa_screen_timeframe _ _ _ _ _ c hc
          exact ⟨0, by omega, by rw [h1]; push_cast; ring,
            by rw [h2]; push_cast; ring⟩
        · obtain ⟨h1, h2⟩ := ad_screen_timeframe _ _ _ _ _ _ _ _ _ c hc hz
          exact ⟨1, by omega, by rw [h1]; push_cast; ring,
            by rw [h2]; push_cast; ring⟩
        · obtain ⟨k, hk, h1, h2⟩ := ih _ _ _ _ (by omega) c hc hz
          refine ⟨k + 2, by omega, ?_, ?_⟩
          · rw [h1]; push_cast; ring
          · rw [h2]; push_cast; ring

theorem middle_rounds_tile_cover_aux (resolve : String → Option Size)
    (assets : List String) (act : String) (D seg : ℚ) (AD' : ℕ) :
    ∀ (fuel aa ad : ℕ) (t : ℚ) (idx : ℕ), aa + ad ≤ fuel →
      ∀ k : ℕ, k < aa + ad →
        ∃ c ∈ middle_rounds resolve assets act D seg AD' aa ad t idx,
          c.timeFrame.start = t + k * seg ∧
          c.timeFrame.end_ = t + (k + 1) * seg := by
  intro fuel
  induction fuel with
  | zero =>
    intro aa ad t idx h k hk
    omega
  | succ n ih =>
    intro aa ad t idx h k hk
    rcases Nat.eq_zero_or_pos aa with haa | haa
    · rcases Nat.eq_zero_or_pos ad with had | had
      · omega
      · subst haa
        rw [middle_rounds_ad_only _ _ _ _ _ _ _ _ _ had]
        rcases Nat.eq_zero_or_pos k with hk0 | hk0
        · subst hk0
          refine ⟨asset_clip resolve (assets.getD idx (""))
            upper_container_center t seg, ?_, ?_, ?_⟩
          · apply List.mem_append_left
            simp [ad_screen]
          · simp only [asset_clip]; push_cast; ring
          · simp only [asset_clip]; push_cast; ring
        · obtain ⟨c, hc, h1, h2⟩ := ih 0 (ad - 1) (t + seg) (idx + 1)
            (by omega) (k - 1) (by omega)
          refine ⟨c, List.mem_append_right _ hc, ?_, ?_⟩
          · rw [h1]
            have hkk : ((k - 1 : ℕ) : ℚ) = (k : ℚ) - 1 := by
              push_cast [Nat.cast_sub hk0]; ring
            rw [hkk]; ring
          · rw [h2]
            have hkk : ((k - 1 : ℕ) : ℚ) = (k : ℚ) - 1 := by
              push_cast [Nat.cast_sub hk0]; ring
            rw [hkk]; ring
    · rcases Nat.eq_zero_or_pos ad with had | had
      · subst had
        rw [middle_rounds_aa_only _ _ _ _ _ _ _ _ _ haa]
        rcases Nat.eq_zero_or_pos k with hk0 | hk0
        · subst hk0
          refine ⟨background_clip t seg, ?_, ?_, ?_⟩
          · apply List.mem_append_left
            simp [aa_screen]
          · simp only [background_clip]; push_cast; ring
          · simp only [background_clip]; push_cast; ring
        · obtain ⟨c, hc, h1, h2⟩ := ih (aa - 1) 0 (t + seg) (idx + 2)
            (by omega) (k - 1) (by omega)
          refine ⟨c, List.mem_append_right _ hc, ?_, ?_⟩
          · rw [h1]
            have hkk : ((k - 1 : ℕ) : ℚ) = (k : ℚ) - 1 := by
              push_cast [Nat.cast_sub hk0]; ring
            rw [hkk]; ring
          · rw [h2]
            have hkk : ((k - 1 : ℕ) : ℚ) = (k : ℚ) - 1 := by
              push_cast [Nat.cast_sub hk0]; ring
            rw [hkk]; ring
      · rw [middle_rounds_both _ _ _ _ _ _ _ _ _ _ haa had]
        rcases Nat.eq_zero_or_pos k with hk0 | hk0
        · subst hk0
          refine ⟨background_clip t seg, ?_, ?_, ?_⟩
          · apply List.mem_append_left
            apply List.mem_append_left
            simp [aa_screen]
          · simp only [background_clip]; push_cast; ring
          · simp only [background_clip]; push_cast; ring
        · rcases Nat.lt_or_ge k 2 with hk1 | hk1
          · have hk2 : k = 1 := by omega
            subst hk2
            refine ⟨asset_clip resolve (assets.getD (idx + 2) "")
              upper_container_center (t + seg) seg, ?_, ?_, ?_⟩
            · apply List.mem_append_left
              apply List.mem_append_right
              simp [ad_screen]
            · simp only [asset_clip]; push_cast; ring
            · simp only [asset_clip]; push_cast; ring
          · obtain ⟨c, hc, h1, h2⟩ := ih (aa - 1) (ad - 1)
              (t + 2 * seg) (idx + 3) (by omega) (k - 2) (by omega)
            refine ⟨c, List.mem_append_right _ hc, ?_, ?_⟩
            · rw [h1]
              have hkk : ((k - 2 : ℕ) : ℚ) = (k : ℚ) - 2 := by
                push_cast [Nat.cast_sub hk1]; ring
              rw [hkk]; ring
            · rw [h2]
              have hkk : ((k - 2 : ℕ) : ℚ) = (k : ℚ) - 2 := by
                push_cast [Nat.cast_sub hk1]; ring
              rw [hkk]; ring

/-- C2: the opening clip covers exactly `[0, 5000)` with offset 0, the
closing clip covers exactly `[D-5000, D)` with offset `D-5000`, and the
middle screens tile `[5000, D-5000)` in consecutive segments of width
`(D-10000)/screenCount` with no gaps: every middle clip other than the
continuous actor overlay occupies segment `k` — `[5000 + k*seg,
5000 + (k+1)*seg)` — for some `k < screenCount`, each screen's clips
starting at the previous screen's end, and every segment index is
occupied; `5000 + screenCount*seg = D - 5000` exactly. -/
theorem C2_timeline_coverage (resolve : String → Option Size)
    (actor_video_url : String) (total_duration : ℚ) (assets : List String)
    (background_color_hex : String) (hn : 1 ≤ assets.length) :
    ∃ doc middle,
      create_video_json resolve actor_video_url total_duration assets none
          background_color_hex = Except.ok doc ∧
      let screens : ℕ := assets.length / 3 +
        (assets.length - 2 * (assets.length / 3))
      let seg : ℚ := (total_duration - 10000) / (screens : ℚ)
      doc.clips =
        actor_frame_clip resolve actor_video_url 0 only_actor_time 0 ::
          middle ++
          [actor_frame_clip resolve actor_video_url
            (total_duration - only_actor_time) total_duration
            (total_duration - only_actor_time)] ∧
      (actor_frame_clip resolve actor_video_url 0 only_actor_time
          0).timeFrame = { start := 0, end_ := 5000, offset := some 0 } ∧
      (actor_frame_clip resolve actor_video_url
          (total_duration - only_actor_time) total_duration
          (total_duration - only_actor_time)).timeFrame =
        { start := total_duration - 5000, end_ := total_duration
          offset := some (total_duration - 5000) } ∧
      5000 + (screens : ℚ) * seg = total_duration - 5000 ∧
      (∀ c ∈ middle, c.position.z ≠ 0 →
        ∃ k : ℕ, k < screens ∧
          c.timeFrame.start = 5000 + k * seg ∧
          c.timeFrame.end_ = 5000 + (k + 1) * seg) ∧
      (∀ k : ℕ, k < screens →
        ∃ c ∈ middle,
          c.timeFrame.start = 5000 + k * seg ∧
          c.timeFrame.end_ = 5000 + (k + 1) * seg) := by
  have hscreens : ¬ (assets.length / 3 +
      (assets.length - 2 * (assets.length / 3)) = 0) := by omega
  have hne : ((assets.length / 3 +
      (assets.length - 2 * (assets.length / 3)) : ℕ) : ℚ) ≠ 0 :=
    Nat.cast_ne_zero.mpr hscreens
  simp only [create_video_json, if_neg hscreens]
  refine ⟨_, middle_rounds resolve assets actor_video_url total_duration
      ((total_duration - 2 * only_actor_time) /
        ((assets.length / 3 +
          (assets.length - 2 * (assets.length / 3)) : ℕ) : ℚ))
      (assets.length - 2 * (assets.length / 3)) (assets.length / 3)
      (assets.length - 2 * (assets.length / 3)) only_actor_time 0,
    rfl, ?_⟩
  dsimp only
  have hseg : (total_duration - 2 * only_actor_time) /
      ((assets.length / 3 +
        (assets.length - 2 * (assets.length / 3)) : ℕ) : ℚ) =
      (total_duration - 10000) /
      ((assets.length / 3 +
        (assets.length - 2 * (assets.length / 3)) : ℕ) : ℚ) := by
    norm_num [only_actor_time]
  refine ⟨by simp, rfl, rfl, ?_, ?_, ?_⟩
  · rw [mul_comm, div_mul_cancel₀ _ hne]
    ring
  · intro c hc hz
    obtain ⟨k, hk, h1, h2⟩ := middle_rounds_tile_mem_aux resolve assets
      actor_video_url total_duration _ _
      (assets.length / 3 + (assets.length - 2 * (assets.length / 3)))
      _ _ _ _ (le_refl _) c hc hz
    exact ⟨k, hk, by rw [h1, hseg]; norm_num [only_actor_time],
      by rw [h2, hseg]; norm_num [only_actor_time]⟩
  · intro k hk
    obtain ⟨c, hc, h1, h2⟩ := middle_rounds_tile_cover_aux resolve assets
      actor_video_url total_duration _ _
      (assets.length / 3 + (assets.length - 2 * (assets.length / 3)))
      _ _ _ _ (le_refl _) k hk
    exact ⟨c, hc, by rw [h1, hseg]; norm_num [only_actor_time],
      by rw [h2, hseg]; norm_num [only_actor_time]⟩

/-- C2 witness. -/
theorem C2_timeline_coverage_witness :
    ∃ doc middle,
      create_video_json (fun _ => none) "actor.mp4" 65000
          ["a.jpg", "b.jpg", "c.jpg"] none ("#000000") = Except.ok doc ∧
      let screens : ℕ := (["a.jpg", "b.jpg", "c.jpg"] : List String).length / 3 +
        ((["a.jpg", "b.jpg", "c.jpg"] : List String).length -
          2 * ((["a.jpg", "b.jpg", "c.jpg"] : List String).length / 3))
      let seg : ℚ := (65000 - 10000) / (screens : ℚ)
      doc.clips =
        actor_frame_clip (fun _ => none) "actor.mp4" 0 only_actor_time 0 ::
          middle ++
          [actor_frame_clip (fun _ => none) "actor.mp4"
            (65000 - only_actor_time) 65000 (65000 - only_actor_time)] ∧
      (actor_frame_clip (fun _ => none) "actor.mp4" 0 only_actor_time
          0).timeFrame = { start := 0, end_ := 5000, offset := some 0 } ∧
      (actor_frame_clip (fun _ => none) "actor.mp4"
          (65000 - only_actor_time) 65000
          (65000 - only_actor_time)).timeFrame =
        { start := 65000 - 5000, end_ := 65000
          offset := some (65000 - 5000) } ∧
      5000 + (screens : ℚ) * seg = 65000 - 5000 ∧
      (∀ c ∈ middle, c.position.z ≠ 0 →
        ∃ k : ℕ, k < screens ∧
          c.timeFrame.start = 5000 + k * seg ∧
          c.timeFrame.end_ = 5000 + (k + 1) * seg) ∧
      (∀ k : ℕ, k < screens →
        ∃ c ∈ middle,
          c.timeFrame.start = 5000 + k * seg ∧
          c.timeFrame.end_ = 5000 + (k + 1) * seg) :=
  C2_timeline_coverage (fun _ => none) "actor.mp4" 65000
    ["a.jpg", "b.jpg", "c.jpg"] "#000000" (by decide)

/-- One response of the status-poll endpoint: either a transport error
(`requests` exception) or a JSON body whose `data` carries `status`,
optionally `outputUrl`, and optionally `error`. -/
inductive PollResponse where
  | ok (status : String) (outputUrl : Option String) (error : Option String)
  | requestError
  deriving DecidableEq

/-- The distinct exit paths of `monitor_render_progress`: completion (with
the response's `outputUrl`), a server-reported failure carrying the
server-supplied reason, a transport error, exhaustion of `max_attempts`
(the timeout path, printed as "Timeout: Maximum attempts reached"), and
the missing-credential path. -/
inductive MonitorResult where
  | completed (outputUrl : Option String)
  | renderFailed (reason : String)
  | requestFailed
  | timeout
  | missingKey
  deriving DecidableEq

/-- Observable outcome of the polling loop: which exit was taken, how many
60-second waits were performed (`sleeps`), and how many status GETs were
issued (`gets`). -/
structure MonitorOutcome where
  result : MonitorResult
  sleeps : ℕ
  gets : ℕ
  deriving DecidableEq

/-- The `while attempt < max_attempts` loop of `monitor_render_progress`:
`attempt` is the current counter, the second argument the remaining
attempts (`max_attempts - attempt`).  Each iteration issues one GET; a
`completed` status returns the response's `outputUrl`, a `failed` status
returns the reason `data.get('error', 'Unknown error')`, any other status
sleeps and increments `attempt`. -/
def monitor_go (responses : ℕ → PollResponse) :
    ℕ → ℕ → MonitorOutcome
  | attempt, 0 => ⟨.timeout, attempt, attempt⟩
  | attempt, fuel + 1 =>
    match responses attempt with
    | .requestError => ⟨.requestFailed, attempt, attempt + 1⟩
    | .ok status outputUrl error =>
      if status = "completed" then
        ⟨.completed outputUrl, attempt, attempt + 1⟩
      else if status = "failed" then
        ⟨.renderFailed (error.getD ("Unknown error")), attempt, attempt + 1⟩
      else monitor_go responses (attempt + 1) fuel

/-- Function `monitor_render_progress(render_id, max_attempts=60)`: checks the
credential first, then runs the polling loop from attempt 0. -/
def monitor_render_progress (api_key : Option String)
    (responses : ℕ → PollResponse) (max_attempts : ℕ) : MonitorOutcome :=
  match api_key with
  | none => ⟨.missingKey, 0, 0⟩
  | some _ => monitor_go responses 0 max_attempts

/-- A poll response that keeps the loop going: a well-formed body whose
status is neither `completed` nor `failed`. -/
def nonterminal (r : PollResponse) : Prop :=
  ∃ status outputUrl error, r = PollResponse.ok status outputUrl error ∧
    status ≠ "completed" ∧ status ≠ "failed"

theorem monitor_go_step (responses : ℕ → PollResponse) (i fuel : ℕ)
    (h : nonterminal (responses i)) :
    monitor_go responses i (fuel + 1) = monitor_go responses (i + 1) fuel := by
  obtain ⟨s, u, e, hr, hc, hf⟩ := h
  simp [monitor_go, hr, hc, hf]

theorem monitor_go_terminal (responses : ℕ → PollResponse) :
    ∀ (i start fuel : ℕ), (∀ j < i, nonterminal (responses (start + j))) →
      i < fuel →
      ((∀ url e, responses (start + i) = PollResponse.ok ("completed") url e →
        monitor_go responses start fuel =
          ⟨.completed url, start + i, start + i + 1⟩) ∧
       (∀ reason u, responses (start + i) =
          PollResponse.ok ("failed") u (some reason) →
        monitor_go responses start fuel =
          ⟨.renderFailed reason, start + i, start + i + 1⟩)) := by
  intro i
  induction i with
  | zero =>
    intro start fuel hpre hlt
    match fuel, hlt with
    | f + 1, _ =>
      constructor
      · intro url e hresp
        rw [show start + 0 = start by omega] at hresp
        simp [monitor_go, hresp]
      · intro reason u hresp
        rw [show start + 0 = start by omega] at hresp
        simp [monitor_go, hresp]
  | succ i ih =>
    intro start fuel hpre hlt
    match fuel, hlt with
    | f + 1, _ =>
      have hstep : monitor_go responses start (f + 1) =
          monitor_go responses (start + 1) f := by
        apply monitor_go_step
        have := hpre 0 (by omega)
        simpa using this
      have hpre' : ∀ j < i, nonterminal (responses (start + 1 + j)) := by
        intro j hj
        have := hpre (j + 1) (by omega)
        rwa [show start + (j + 1) = start + 1 + j by omega] at this
      obtain ⟨ihc, ihf⟩ := ih (start + 1) f hpre' (by omega)
      constructor
      · intro url e hresp
        rw [show start + (i + 1) = start + 1 + i by omega] at hresp
        rw [hstep, ihc url e hresp]
        simp only [MonitorOutcome.mk.injEq]
        refine ⟨trivial, by omega, by omega⟩
      · intro reason u hresp
        rw [show start + (i + 1) = start + 1 + i by omega] at hresp
        rw [hstep, ihf reason u hresp]
        simp only [MonitorOutcome.mk.injEq]
        refine ⟨trivial, by omega, by omega⟩

theorem monitor_go_timeout (responses : ℕ → PollResponse) :
    ∀ (n start : ℕ), (∀ j < n, nonterminal (responses (start + j))) →
      monitor_go responses start n = ⟨.timeout, start + n, start + n⟩ := by
  intro n
  induction n with
  | zero =>
    intro start hpre
    simp [monitor_go]
  | succ n ih =>
    intro start hpre
    have hstep : monitor_go responses start (n + 1) =
        monitor_go responses (start + 1) n := by
      apply monitor_go_step
      have := hpre 0 (by omega)
      simpa using this
    have hpre' : ∀ j < n, nonterminal (responses (start + 1 + j)) := by
      intro j hj
      have := hpre (j + 1) (by omega)
      rwa [show start + (j + 1) = start + 1 + j by omega] at this
    rw [hstep, ih (start + 1) hpre']
    simp only [MonitorOutcome.mk.injEq]
    refine ⟨trivial, by omega, by omega⟩

/-- C7: with a credential present, the first `completed` response makes the
polling loop return that response's `outputUrl` after `i` wait intervals
(`i` being the number of earlier non-terminal responses); a `failed`
response exits with the server-supplied reason; and exhausting
`max_attempts` without a terminal status exits through the timeout path,
which is a distinct outcome from any server-reported failure. -/
theorem C7_polling_behaviour (api_key : String)
    (responses : ℕ → PollResponse) (max_attempts : ℕ) :
    (∀ (i : ℕ) (url e : Option String),
      (∀ j < i, nonterminal (responses j)) →
      responses i = PollResponse.ok ("completed") url e →
      i < max_attempts →
      monitor_render_progress (some api_key) responses max_attempts =
        ⟨MonitorResult.completed url, i, i + 1⟩) ∧
    (∀ (i : ℕ) (reason : String) (u : Option String),
      (∀ j < i, nonterminal (responses j)) →
      responses i = PollResponse.ok ("failed") u (some reason) →
      i < max_attempts →
      monitor_render_progress (some api_key) responses max_attempts =
        ⟨MonitorResult.renderFailed reason, i, i + 1⟩) ∧
    ((∀ j < max_attempts, nonterminal (responses j)) →
      monitor_render_progress (some api_key) responses max_attempts =
        ⟨MonitorResult.timeout, max_attempts, max_attempts⟩) ∧
    (∀ reason, MonitorResult.timeout ≠ MonitorResult.renderFailed reason) := by
  refine ⟨?_, ?_, ?_, fun reason h => MonitorResult.noConfusion h⟩
  · intro i url e hpre hresp hlt
    have h := (monitor_go_terminal responses i 0 max_attempts
      (by simpa using hpre) hlt).1 url e (by simpa using hresp)
    simpa [monitor_render_progress] using h
  · intro i reason u hpre hresp hlt
    have h := (monitor_go_terminal responses i 0 max_attempts
      (by simpa using hpre) hlt).2 reason u (by simpa using hresp)
    simpa [monitor_render_progress] using h
  · intro hpre
    have h := monitor_go_timeout responses max_attempts 0
      (by simpa using hpre)
    simpa [monitor_render_progress] using h

/-- C7 witness: `[processing, processing, completed]` returns the third
response's `outputUrl` after two wait intervals; a `failed` first response
returns its reason; all-`processing` responses time out. -/
theorem C7_polling_behaviour_witness :
    monitor_render_progress (some ("key"))
        (fun n => if n < 2 then PollResponse.ok ("processing") none none
          else PollResponse.ok ("completed") (some ("https://o.mp4")) none) 60 =
      ⟨MonitorResult.completed (some ("https://o.mp4")), 2, 3⟩ ∧
    monitor_render_progress (some ("key"))
        (fun _ => PollResponse.ok ("failed") none (some ("render crashed"))) 60 =
      ⟨MonitorResult.renderFailed ("render crashed"), 0, 1⟩ ∧
    monitor_render_progress (some ("key"))
        (fun _ => PollResponse.ok ("processing") none none) 60 =
      ⟨MonitorResult.timeout, 60, 60⟩ := by
  refine ⟨(C7_polling_behaviour ("key") _ 60).1 2 (some ("https://o.mp4")) none
      ?_ (by norm_num) (by norm_num),
    (C7_polling_behaviour ("key") _ 60).2.1 0 ("render crashed") none
      (by omega) rfl (by norm_num),
    (C7_polling_behaviour ("key") _ 60).2.2.1 ?_⟩
  · intro j hj
    exact ⟨"processing", none, none, by simp [hj], by decide, by decide⟩
  · intro j hj
    exact ⟨"processing", none, none, rfl, by decide, by decide⟩

/-- Externally observable events of `create_and_render_video`: an HTTP
asset fetch from `download_and_cache`, the printed missing-credential
error of `render_video`, the render-submission POST, and a status-poll
GET. -/
inductive NetEvent where
  | fetch (url : String)
  | credentialError
  | submitPost
  | pollGet
  deriving DecidableEq

/-- The fetch events produced by a sequence of `download_and_cache` calls:
a URL already in the cache is returned without network traffic; otherwise
one HTTP fetch happens and the file enters the cache.  (Downloads are
assumed to succeed; only the event sequence is modelled.)  Returns the
events and the final cache. -/
def fetch_list : List String → List String → List NetEvent × List String
  | cache, [] => ([], cache)
  | cache, url :: rest =>
    if url ∈ cache then fetch_list cache rest
    else
      let next := fetch_list (url :: cache) rest
      (NetEvent.fetch url :: next.1, next.2)

/-- The `download_and_cache` call order inside the middle-section loop:
each AA screen probes assets `idx` and `idx + 1`; each AD screen probes
asset `idx` and, on the first AD screen (`remaining_ad = AD`), the actor
video for the continuous clip.  Mirrors `middle_rounds`. -/
def middle_download_calls (assets : List String) (actor_video_url : String)
    (AD : ℕ) (remaining_aa remaining_ad : ℕ) (idx : ℕ) : List String :=
  if remaining_aa = 0 ∧ remaining_ad = 0 then []
  else if 0 < remaining_aa ∧ 0 < remaining_ad then
    [assets.getD idx (""), assets.getD (idx + 1) ""] ++
    ([assets.getD (idx + 2) ""] ++
      (if remaining_ad = AD then [actor_video_url] else [])) ++
    middle_download_calls assets actor_video_url AD (remaining_aa - 1)
      (remaining_ad - 1) (idx + 3)
  else if 0 < remaining_aa then
    [assets.getD idx (""), assets.getD (idx + 1) ""] ++
    middle_download_calls assets actor_video_url AD (remaining_aa - 1)
      remaining_ad (idx + 2)
  else
    ([assets.getD idx ("")] ++
      (if remaining_ad = AD then [actor_video_url] else [])) ++
    middle_download_calls assets actor_video_url AD remaining_aa
      (remaining_ad - 1) (idx + 1)
termination_by remaining_aa + remaining_ad
decreasing_by all_goals omega

/-- The network-event trace of `create_and_render_video(actor_url,
total_duration, assets, ...)`.  `create_video_json` first caches the actor
video and every asset, then probes the actor for the opening clip, the
middle-section media in loop order, and the actor again for the closing
clip; if `no_of_screens = 0` it dies with `ZeroDivisionError` right after
the prefetch.  Only then does `render_video` check the credential: with no
API key it prints the error and returns `None` (no POST); otherwise one
POST is issued, and when a render id comes back (`submit_result`),
`monitor_render_progress` issues its GETs. -/
def create_and_render_video_events (api_key : Option String)
    (cache : List String) (submit_result : Option String)
    (responses : ℕ → PollResponse) (max_attempts : ℕ)
    (actor_url : String) (total_duration : ℚ) (assets : List String) :
    List NetEvent :=
  let n := assets.length
  let P := n / 3
  let AD := n - 2 * P
  let AA := P
  let prefetch := fetch_list cache ([actor_url] ++ assets)
  if AA + AD = 0 then prefetch.1
  else
    let rest := fetch_list prefetch.2
      ([actor_url] ++ middle_download_calls assets actor_url AD AA AD 0 ++
        [actor_url])
    let fetches := prefetch.1 ++ rest.1
    match api_key with
    | none => fetches ++ [NetEvent.credentialError]
    | some _ =>
      match submit_result with
      | none => fetches ++ [NetEvent.submitPost]
      | some _ =>
        fetches ++ [NetEvent.submitPost] ++
        List.replicate (monitor_go responses 0 max_attempts).gets
          NetEvent.pollGet

/-- C8 counterexample: with the credential variable absent, an empty cache
and one supplementary asset, the very first observable event of
`create_and_render_video` is an asset fetch — two asset-fetch network
calls precede the credential error, so the configuration error is not
surfaced before any network call. -/
theorem C8_counterexample_fetch_before_credential_check :
    create_and_render_video_events none [] none
        (fun _ => PollResponse.requestError) 60 ("a.mp4") 30000 ["b.jpg"] =
      [NetEvent.fetch ("a.mp4"), NetEvent.fetch ("b.jpg"),
        NetEvent.credentialError] ∧
    (create_and_render_video_events none [] none
        (fun _ => PollResponse.requestError) 60 ("a.mp4") 30000
        ["b.jpg"]).head? ≠ some NetEvent.credentialError := by
  have hmdc : middle_download_calls ["b.jpg"] "a.mp4" 1 0 1 0 =
      ["b.jpg", "a.mp4"] := by
    rw [middle_download_calls.eq_def]
    norm_num
    rw [middle_download_calls.eq_def]
    norm_num
  have hev : create_and_render_video_events none [] none
      (fun _ => PollResponse.requestError) 60 ("a.mp4") 30000 ["b.jpg"] =
      [NetEvent.fetch ("a.mp4"), NetEvent.fetch ("b.jpg"),
        NetEvent.credentialError] := by
    simp [create_and_render_video_events, fetch_list, hmdc]
  refine ⟨hev, ?_⟩
  rw [hev]
  simp

theorem fetch_list_only_fetches :
    ∀ (urls cache : List String) (e : NetEvent),
      e ∈ (fetch_list cache urls).1 → ∃ u, e = NetEvent.fetch u := by
  intro urls
  induction urls with
  | nil =>
    intro cache e he
    simp [fetch_list] at he
  | cons url rest ih =>
    intro cache e he
    simp only [fetch_list] at he
    split at he
    · exact ih _ _ he
    · rcases List.mem_cons.mp he with h | h
      · exact ⟨url, h⟩
      · exact ih _ _ h

/-- C8 amended: with the credential variable absent (and at least one
supplementary asset, so document synthesis completes), the configuration
error is surfaced and no render-service network call is ever issued — no
submission POST and no polling GET appear in the event trace, whose final
event is the credential error.  (Asset-fetch network calls do precede it;
see the counterexample.) -/
theorem C8_no_render_calls_without_credential (cache : List String)
    (submit_result : Option String) (responses : ℕ → PollResponse)
    (max_attempts : ℕ) (actor_url : String) (total_duration : ℚ)
    (assets : List String) (hn : 1 ≤ assets.length) :
    NetEvent.submitPost ∉ create_and_render_video_events none cache
      submit_result responses max_attempts actor_url total_duration assets ∧
    NetEvent.pollGet ∉ create_and_render_video_events none cache
      submit_result responses max_attempts actor_url total_duration assets ∧
    (create_and_render_video_events none cache submit_result responses
      max_attempts actor_url total_duration assets).getLast? =
      some NetEvent.credentialError := by
  have hscreens : ¬ (assets.length / 3 +
      (assets.length - 2 * (assets.length / 3)) = 0) := by omega
  simp only [create_and_render_video_events, if_neg hscreens]
  refine ⟨?_, ?_, ?_⟩
  · intro h
    rcases List.mem_append.mp h with h1 | h1
    · rcases List.mem_append.mp h1 with h2 | h2
      · obtain ⟨u, hu⟩ := fetch_list_only_fetches _ _ _ h2
        exact NetEvent.noConfusion hu
      · obtain ⟨u, hu⟩ := fetch_list_only_fetches _ _ _ h2
        exact NetEvent.noConfusion hu
    · rcases List.mem_cons.mp h1 with h2 | h2
      · exact NetEvent.noConfusion h2
      · exact absurd h2 (List.not_mem_nil _)
  · intro h
    rcases List.mem_append.mp h with h1 | h1
    · rcases List.mem_append.mp h1 with h2 | h2
      · obtain ⟨u, hu⟩ := fetch_list_only_fetches _ _ _ h2
        exact NetEvent.noConfusion hu
      · obtain ⟨u, hu⟩ := fetch_list_only_fetches _ _ _ h2
        exact NetEvent.noConfusion hu
    · rcases List.mem_cons.mp h1 with h2 | h2
      · exact NetEvent.noConfusion h2
      · exact absurd h2 (List.not_mem_nil _)
  · exact List.getLast?_concat _

/-- C8 amended-claim witness. -/
theorem C8_no_render_calls_without_credential_witness :
    NetEvent.submitPost ∉ create_and_render_video_events none []
      none (fun _ => PollResponse.requestError) 60 ("a.mp4") 30000 ["b.jpg"] ∧
    NetEvent.pollGet ∉ create_and_render_video_events none []
      none (fun _ => PollResponse.requestError) 60 ("a.mp4") 30000 ["b.jpg"] ∧
    (create_and_render_video_events none [] none
      (fun _ => PollResponse.requestError) 60 ("a.mp4") 30000
      ["b.jpg"]).getLast? = some NetEvent.credentialError :=
  C8_no_render_calls_without_credential [] none
    (fun _ => PollResponse.requestError) 60 ("a.mp4") 30000 ["b.jpg"]
    (by decide)
